import Mathlib

/-!
# Verification of the sandbox SDK core against its specification

Shallow embedding of the `sandbox` package (script builder, result codec,
environment filter, process/container runner backends, outcome assembler)
together with theorems settling the specification claims.

Conventions:
* Python dictionaries become ordered association lists `List (String × _)`
  (Python dicts preserve insertion order).
* Python string truthiness is modelled explicitly (`""` is falsy).
* Fallible Python code (raising exceptions) becomes `Except`.
* JSON values decoded by `json.loads` become the inductive type `JValue`;
  the parser below models the stdlib `json.loads` on the fragment used by
  the wire protocol (objects, arrays, strings with the common escapes,
  integers, booleans, null). Floats and `\uXXXX` escapes are not needed by
  any claim and are outside the modelled fragment.
-/

set_option autoImplicit false

namespace SandboxSDK

/-- JSON values, as produced by Python's `json.loads`. -/
inductive JValue where
  | null
  | bool (b : Bool)
  | num (n : Int)
  | str (s : String)
  | arr (elems : List JValue)
  | obj (fields : List (String × JValue))

/-- Skip JSON whitespace, as `json.loads` does between tokens. -/
def skipWs : List Char → List Char
  | [] => []
  | c :: cs => if c = ' ' ∨ c = '\t' ∨ c = '\n' ∨ c = '\r' then skipWs cs else c :: cs

/-- One-character JSON string escapes recognized by `json.loads`. -/
def escChar (e : Char) : Option Char :=
  if e = 'n' then some '\n'
  else if e = 't' then some '\t'
  else if e = 'r' then some '\r'
  else if e = 'b' then some (Char.ofNat 8)
  else if e = 'f' then some (Char.ofNat 12)
  else if e = '"' ∨ e = '\\' ∨ e = '/' then some e
  else none

/-- Parse the body of a JSON string (after the opening quote), returning the
decoded string and the remaining input. -/
def parseStringBody : List Char → Option (String × List Char)
  | [] => none
  | '"' :: cs => some ("", cs)
  | '\\' :: e :: cs =>
    match escChar e with
    | none => none
    | some c =>
      match parseStringBody cs with
      | none => none
      | some (s, rest) => some (String.mk (c :: s.data), rest)
  | c :: cs =>
    match parseStringBody cs with
    | none => none
    | some (s, rest) => some (String.mk (c :: s.data), rest)

/-- Take a maximal run of decimal digits. -/
def takeDigits : List Char → (List Char × List Char)
  | [] => ([], [])
  | c :: cs =>
    if c.isDigit then
      let p := takeDigits cs
      (c :: p.1, p.2)
    else ([], c :: cs)

/-- Numeric value of a digit run. -/
def digitsToNat (ds : List Char) : Nat :=
  ds.foldl (fun a c => a * 10 + (c.toNat - 48)) 0

/-- Parse a JSON integer (the numeric fragment the wire protocol uses). -/
def parseNumber (cs : List Char) : Option (JValue × List Char) :=
  match cs with
  | '-' :: rest =>
    match takeDigits rest with
    | ([], _) => none
    | (ds, rem) => some (.num (-(digitsToNat ds : Int)), rem)
  | _ =>
    match takeDigits cs with
    | ([], _) => none
    | (ds, rem) => some (.num (digitsToNat ds), rem)

mutual

/-- Parse one JSON value. `fuel` bounds recursion depth; `jsonParse` supplies
enough fuel for any input of the given length. -/
def parseVal : Nat → List Char → Option (JValue × List Char)
  | 0, _ => none
  | Nat.succ fuel, cs =>
    match skipWs cs with
    | 'n' :: 'u' :: 'l' :: 'l' :: rest => some (.null, rest)
    | 't' :: 'r' :: 'u' :: 'e' :: rest => some (.bool true, rest)
    | 'f' :: 'a' :: 'l' :: 's' :: 'e' :: rest => some (.bool false, rest)
    | '"' :: rest =>
      (match parseStringBody rest with
       | some (s, rem) => some (.str s, rem)
       | none => none)
    | '[' :: rest =>
      (match skipWs rest with
       | ']' :: rem => some (.arr [], rem)
       | other =>
         match parseItems fuel other with
         | some (vs, rem) => some (.arr vs, rem)
         | none => none)
    | '{' :: rest =>
      (match skipWs rest with
       | '}' :: rem => some (.obj [], rem)
       | other =>
         match parseFields fuel other with
         | some (fs, rem) => some (.obj fs, rem)
         | none => none)
    | other => parseNumber other

/-- Parse the comma-separated items of a non-empty JSON array. -/
def parseItems : Nat → List Char → Option (List JValue × List Char)
  | 0, _ => none
  | Nat.succ fuel, cs =>
    match parseVal fuel cs with
    | none => none
    | some (v, rest) =>
      match skipWs rest with
      | ',' :: rest2 =>
        (match parseItems fuel rest2 with
         | some (vs, rem) => some (v :: vs, rem)
         | none => none)
      | ']' :: rem => some ([v], rem)
      | _ => none

/-- Parse the comma-separated entries of a non-empty JSON object. -/
def parseFields : Nat → List Char → Option (List (String × JValue) × List Char)
  | 0, _ => none
  | Nat.succ fuel, cs =>
    match skipWs cs with
    | '"' :: rest =>
      (match parseStringBody rest with
       | none => none
       | some (k, rest2) =>
         match skipWs rest2 with
         | ':' :: rest3 =>
           (match parseVal fuel rest3 with
            | none => none
            | some (v, rest4) =>
              match skipWs rest4 with
              | ',' :: rest5 =>
                (match parseFields fuel rest5 with
                 | some (fs, rem) => some ((k, v) :: fs, rem)
                 | none => none)
              | '}' :: rem => some ([(k, v)], rem)
              | _ => none)
         | _ => none)
    | _ => none

end

/-- Model of Python `json.loads`: parse a whole string as one JSON value,
rejecting trailing data, failing with a short diagnostic message. -/
def jsonParse (s : String) : Except String JValue :=
  match parseVal (s.length + 1) s.data with
  | some (v, rest) => if skipWs rest = [] then .ok v else .error "Extra data"
  | none => .error "Expecting value"

/-- Python `dict` lookup on a decoded JSON object: `json.loads` keeps the last
occurrence of a duplicated key, so lookup returns the last binding. -/
def objGet (fields : List (String × JValue)) (k : String) : Option JValue :=
  fields.foldl (fun acc kv => if kv.1 = k then some kv.2 else acc) none

/-- `"result" in parsed` / `"error" in parsed`. -/
def objHasKey (fields : List (String × JValue)) (k : String) : Bool :=
  fields.any (fun kv => kv.1 == k)

/-- The `Result` TypedDict of `sandbox._utils`: stdout/stderr capture,
optional structured result, optional error description.  An absent `result`
key is `none`. -/
structure Result where
  stdout : String := ""
  stderr : String := ""
  result : Option JValue := none
  error : Option String := none

/-- Python truthiness of `exec_result.get("error")`: `None` and `""` are
falsy. -/
def optStrTruthy : Option String → Bool
  | none => false
  | some s => !(s == "")

/-- Python `s[:n]`: a prefix of at most `n` code points. -/
def takeChars (s : String) (n : Nat) : String :=
  String.mk (s.data.take n)

/-- Drop leading whitespace characters. -/
def dropWs : List Char → List Char
  | [] => []
  | c :: cs => if c.isWhitespace then dropWs cs else c :: cs

/-- Python `str.strip()`: remove leading and trailing whitespace. -/
def pyStrip (s : String) : String :=
  String.mk (dropWs ((dropWs s.data.reverse).reverse))

/-- Does `needle` start `hay`? (helper for substring search). -/
def startsWithChars : List Char → List Char → Bool
  | _, [] => true
  | [], _ :: _ => false
  | a :: as, b :: bs => a == b && startsWithChars as bs

/-- Contiguous substring search on character lists. -/
def containsSub : List Char → List Char → Bool
  | [], needle => needle.isEmpty
  | hay@(_ :: t), needle => startsWithChars hay needle || containsSub t needle

/-- Python `needle in hay` for strings: contiguous substring containment. -/
def strContains (hay needle : String) : Bool :=
  containsSub hay.data needle.data

/-- `_utils.decode_result_from_stdout`: `json.loads(stdout.strip())`; on a
decode failure, raise `ValueError` with a bounded preview (`stdout[:1000]`
plus an ellipsis when longer than 1000 characters) of the offending text. -/
def decode_result_from_stdout (stdout : String) : Except String JValue :=
  match jsonParse (pyStrip stdout) with
  | .ok v => .ok v
  | .error msg =>
    let preview := if stdout.length > 1000 then takeChars stdout 1000 ++ "..." else stdout
    .error ("Failed to decode JSON result from stdout: " ++ msg ++ ". Output preview: " ++ preview)

/-- Python type name of a decoded JSON value (used in the `TypeError` text
below). -/
def pyTypeName : JValue → String
  | .null => "NoneType"
  | .bool _ => "bool"
  | .num _ => "int"
  | .str _ => "str"
  | .arr _ => "list"
  | .obj _ => "dict"

/-- Modelled from Python semantics: when the decoded `error` value is not a
string, `script_error not in runner_stderr` raises `TypeError`, which
`run_function`'s generic `except Exception` handler converts into a fresh
setup-error `Result`.  The real message ends with an environment-dependent
traceback, elided here; no claim depends on this branch. -/
def nonStringGuestErrorResult (v : JValue) : Result :=
  let msg := "Error in sandbox.run_function setup: \x27in <string>\x27 requires string as left operand, not "
    ++ pyTypeName v
  { stdout := "", stderr := msg, error := some msg }

/-- The guest-error branch of `Sandbox.run_function` (manager.py lines
243-255): combine the decoded `error` value with the runner stderr into one
message, and append the guest error to the stderr channel when it is not
already contained there. -/
def combineGuestError (r1 : Result) (scriptError : String) : Result :=
  let combined0 := "Script Error: " ++ scriptError
  let runnerStderr := r1.stderr
  let combined :=
    if runnerStderr ≠ "" ∧ strContains runnerStderr scriptError = false then
      combined0 ++ "\n--- Runner Stderr ---\n" ++ runnerStderr
    else combined0
  let r2 := { r1 with error := some combined }
  if strContains runnerStderr scriptError = false then
    { r2 with stderr := pyStrip (runnerStderr ++ "\n" ++ scriptError) }
  else r2

/-- The decoded-mapping branch of `Sandbox.run_function` (manager.py lines
240-259): copy a `result` key into the outcome, then handle an `error` key
or its absence. -/
def assembleDecoded (r : Result) (fields : List (String × JValue)) : Result :=
  let r1 := match objGet fields "result" with
    | some v => { r with result := some v }
    | none => r
  match objGet fields "error" with
  | some (.str scriptError) => combineGuestError r1 scriptError
  | some v => nonStringGuestErrorResult v
  | none =>
    if objHasKey fields "result" then r1
    else { r1 with error := some "Script JSON output missing \x27result\x27 or \x27error\x27." }

/-- The post-execution half of `Sandbox.run_function` (manager.py lines
230-273): given the backend `Result`, decode stdout and merge guest-level
failures into the error channel. -/
def run_function_postprocess (r : Result) : Result :=
  if optStrTruthy r.error then r
  else if r.stdout ≠ "" then
    match decode_result_from_stdout r.stdout with
    | .error msg => { r with error := some ("Failed to parse JSON from stdout: " ++ msg) }
    | .ok (.obj fields) => assembleDecoded r fields
    | .ok _ => { r with error := some "Script JSON output was not a dictionary." }
  else if r.stderr ≠ "" then
    { r with error := some ("Execution failed (no stdout). Stderr: " ++ takeChars r.stderr 1000) }
  else r

/-! ## Environment filter (runners/subprocess.py, runners/docker.py) -/

/-- Does the environment map hold key `k`? -/
def envHasKey (l : List (String × String)) (k : String) : Bool :=
  l.any (fun kv => kv.1 == k)

/-- Python `dict.get(k)` on an environment map. -/
def envGet (l : List (String × String)) (k : String) : Option String :=
  (l.find? (fun kv => kv.1 == k)).map Prod.snd

/-- The filtering loop shared by both runner constructors: keep exactly the
host-supplied entries whose key is allow-listed, in insertion order. -/
def envFilter (allowed : List String) (environment : List (String × String)) :
    List (String × String) :=
  environment.filter (fun kv => allowed.contains kv.1)

/-- `DEFAULT_ALLOWED_ENV_VARS` of the subprocess runner. -/
def DEFAULT_ALLOWED_ENV_VARS : List String :=
  ["PATH", "HOME", "USER", "TMPDIR", "TEMP", "TMP", "LANG", "LC_ALL"]

/-- `DEFAULT_ALLOWED_ENV_VARS_DOCKER` of the docker runner. -/
def DEFAULT_ALLOWED_ENV_VARS_DOCKER : List String :=
  ["LANG", "LC_ALL"]

/-- One `PATH`/`HOME`/`USER` re-injection step of
`SubprocessSandboxRunner.__init__`: when `name` is allow-listed and missing,
insert `os.environ.get(name, "")`. -/
def injectBootVar (osEnv : List (String × String)) (allowed : List String)
    (name : String) (l : List (String × String)) : List (String × String) :=
  if allowed.contains name && !envHasKey l name then
    l ++ [(name, (envGet osEnv name).getD "")]
  else l

/-- One temp-variable re-injection step: additionally requires
`os.environ.get(temp_var)` to be truthy (present and non-empty). -/
def injectTempVar (osEnv : List (String × String)) (allowed : List String)
    (l : List (String × String)) (name : String) : List (String × String) :=
  if allowed.contains name && !envHasKey l name && !((envGet osEnv name).getD "" == "") then
    l ++ [(name, (envGet osEnv name).getD "")]
  else l

/-- The filtered environment built by `SubprocessSandboxRunner.__init__`
(lines 48-71): allow-list filtering, then re-injection of `PATH`, `HOME`,
`USER` and the temp-directory variables from the process environment
`osEnv` (Python `os.environ`). -/
def subprocessFilteredEnv (allowed : List String) (environment : List (String × String))
    (osEnv : List (String × String)) : List (String × String) :=
  let f0 := envFilter allowed environment
  let f1 := injectBootVar osEnv allowed "PATH" f0
  let f2 := injectBootVar osEnv allowed "HOME" f1
  let f3 := injectBootVar osEnv allowed "USER" f2
  ["TMPDIR", "TEMP", "TMP"].foldl (injectTempVar osEnv allowed) f3

/-- The filtered environment built by `DockerSandboxRunner.__init__`
(lines 48-57): allow-list filtering only, no re-injection. -/
def dockerFilteredEnv (allowed : List String) (environment : List (String × String)) :
    List (String × String) :=
  envFilter allowed environment

/-! ## Process runner backend (runners/subprocess.py) -/

/-- What the external `uv run` child process did, as observed by
`subprocess.run`: normal completion with exit status and captured streams,
`TimeoutExpired`, or an unexpected exception. (`FileNotFoundError` re-raises
and so never yields a `Result`.) -/
inductive ProcEvent where
  | completed (exitCode : Int) (stdout stderr : String)
  | timedOut
  | unexpected (msg : String)

/-- The nonzero-exit error message of the subprocess runner. -/
def subprocessFailMsg (exitCode : Int) (stderr : String) : String :=
  "Subprocess failed (exit code " ++ toString exitCode ++ "). Stderr: " ++ pyStrip stderr

/-- The timeout error message of the subprocess runner; `timeoutStr` renders
`self.timeout` (a Python float or `None`). -/
def subprocessTimeoutMsg (timeoutStr : String) : String :=
  "Subprocess timed out after " ++ timeoutStr ++ " seconds."

/-- `SubprocessSandboxRunner.execute_script` (lines 85-133), given the
observed child-process event.  The `Result` starts as
`{stdout: "", stderr: "", error: None}`. -/
def subprocess_execute (timeoutStr : String) (ev : ProcEvent) : Result :=
  match ev with
  | .completed exitCode out err =>
    { stdout := out, stderr := err,
      error := if exitCode ≠ 0 then some (subprocessFailMsg exitCode err) else none }
  | .timedOut =>
    { stdout := "", stderr := "" ++ "\n[Runner Error] TimeoutExpired",
      error := some (subprocessTimeoutMsg timeoutStr) }
  | .unexpected msg =>
    { stdout := "", stderr := "" ++ "\n[Runner Error] " ++ msg,
      error := some ("Subprocess runner unexpected error: " ++ msg) }

/-! ## Container runner backend (runners/docker.py) -/

/-- What the docker daemon interaction did: normal exec completion with exit
status and demultiplexed (possibly absent) stream bytes, an
`ImageNotFound`/`NotFound` resolution failure, another `DockerException`, or
an unexpected exception at some point after capturing `partialStdout` /
`partialStderr`. -/
inductive DockerEvent where
  | completed (exitCode : Int) (stdoutBytes stderrBytes : Option String)
  | imageNotFound (msg : String)
  | notFound (msg : String)
  | daemonError (msg : String)
  | unexpected (partialStdout partialStderr : String) (msg : String)

/-- `DockerSandboxRunner.execute_script` (lines 75-148): returns a `Result`,
or raises `RuntimeError` (modelled as `Except.error` with the raised
message) for image/container resolution failures and other daemon-level
failures. -/
def docker_execute (ev : DockerEvent) : Except String Result :=
  match ev with
  | .completed exitCode stdoutBytes stderrBytes =>
    let out := stdoutBytes.getD ""
    let err := stderrBytes.getD ""
    .ok { stdout := out, stderr := err,
          error := if exitCode ≠ 0 then
              some ("Docker execution failed (exit code " ++ toString exitCode
                ++ "). Stderr: " ++ pyStrip err)
            else none }
  | .imageNotFound msg => .error ("Docker image/container error: " ++ msg)
  | .notFound msg => .error ("Docker image/container error: " ++ msg)
  | .daemonError msg => .error ("Docker operation failed: " ++ msg)
  | .unexpected partialStdout partialStderr msg =>
    .ok { stdout := partialStdout,
          stderr := partialStderr ++ "\n[Runner Error] " ++ msg,
          error := some ("Docker runner unexpected error: " ++ msg) }

/-- A `Result` actually producible by one of the two backends. -/
def IsBackendOutcome (r : Result) : Prop :=
  (∃ t ev, subprocess_execute t ev = r) ∨ (∃ ev, docker_execute ev = Except.ok r)

/-! ## Script/Protocol builder (manager.py) -/

/-- A dependency specification value (`Dependencies = dict[str, str | DependencyInfo]`):
either a bare version-constraint string, or a `DependencyInfo` record whose
`version`/`extras` keys may each be absent. -/
inductive DepSpec where
  | constraint (c : String)
  | record (version : Option String) (extras : Option (List String))

/-- One line of `Sandbox._format_dependencies` (lines 96-112): the quoted
specifier for a single `(key, value)` dependency entry. -/
def renderDep (kv : String × DepSpec) : String :=
  match kv.2 with
  | .constraint c =>
    if c = "*" then "\"" ++ kv.1 ++ "\"" else "\"" ++ kv.1 ++ c ++ "\""
  | .record ver ex =>
    let version := ver.getD ""
    let extras := ex.getD []
    let spec1 := if extras ≠ [] then kv.1 ++ "[" ++ String.intercalate "," extras ++ "]" else kv.1
    let spec2 := if version ≠ "" then spec1 ++ "==" ++ version else spec1
    "\"" ++ spec2 ++ "\""

/-- `Sandbox._format_dependencies` (lines 93-113): the rendered dependency
block, joined with the comment continuation separator. -/
def format_dependencies (deps : List (String × DepSpec)) : String :=
  String.intercalate ",\n#    " (deps.map renderDep)

/-- `Sandbox._generate_script` (lines 115-127), after `textwrap.dedent` and
`str.format` are applied to the plain-mode template. -/
def generate_script (deps : List (String × DepSpec)) (code : String) : String :=
  "\n# /// script\n# requires-python = \">=3.10\"\n# dependencies = [\n#    "
    ++ format_dependencies deps
    ++ "\n# ]\n# ///\n" ++ code ++ "\n"

/-- UTF-8 encoding of one character, as byte values. -/
def utf8EncodeCharNat (c : Char) : List Nat :=
  let n := c.toNat
  if n < 128 then [n]
  else if n < 2048 then [192 + n / 64, 128 + n % 64]
  else if n < 65536 then [224 + n / 4096, 128 + (n / 64) % 64, 128 + n % 64]
  else [240 + n / 262144, 128 + (n / 4096) % 64, 128 + (n / 64) % 64, 128 + n % 64]

/-- UTF-8 encoding of a string, as byte values (`str.encode("utf-8")`). -/
def utf8Bytes (s : String) : List Nat :=
  s.data.flatMap utf8EncodeCharNat

/-- The base64 alphabet character for a 6-bit value. -/
def b64Char (n : Nat) : Char :=
  ("ABCDEFGHIJKLMNOPQRSTUVWXYZabcdefghijklmnopqrstuvwxyz0123456789+/".data.getD n 'A')

/-- `base64.b64encode` over byte values, with `=` padding. -/
def b64Encode : List Nat → String
  | [] => ""
  | [a] =>
    String.mk [b64Char (a / 4), b64Char ((a % 4) * 16), '=', '=']
  | [a, b] =>
    String.mk [b64Char (a / 4), b64Char ((a % 4) * 16 + b / 16), b64Char ((b % 16) * 4), '=']
  | a :: b :: c :: rest =>
    String.mk [b64Char (a / 4), b64Char ((a % 4) * 16 + b / 16),
      b64Char ((b % 16) * 4 + c / 64), b64Char (c % 64)] ++ b64Encode rest

/-- JSON string escaping of one character as done by `json.dumps` with
`ensure_ascii=False` (non-ASCII characters pass through unescaped). -/
def jsonEscapeChar (c : Char) : String :=
  if c = '"' then "\\\""
  else if c = '\\' then "\\\\"
  else if c = '\n' then "\\n"
  else if c = '\t' then "\\t"
  else if c = '\r' then "\\r"
  else if c.toNat < 32 then
    "\\u00" ++ String.mk [if c.toNat / 16 = 1 then '1' else '0',
      (if c.toNat % 16 < 10 then Char.ofNat (48 + c.toNat % 16)
       else Char.ofNat (87 + c.toNat % 16))]
  else String.mk [c]

/-- The serialized form of a JSON string value. -/
def jsonDumpStr (s : String) : String :=
  "\"" ++ String.join (s.data.map jsonEscapeChar) ++ "\""

mutual

/-- Model of `json.dumps(v, ensure_ascii=False)` with the default
separators (`", "` and `": "`). -/
def jsonDump : JValue → String
  | .null => "null"
  | .bool true => "true"
  | .bool false => "false"
  | .num n => toString n
  | .str s => jsonDumpStr s
  | .arr vs => "[" ++ jsonDumpList vs ++ "]"
  | .obj fs => "\x7b" ++ jsonDumpFields fs ++ "\x7d"

/-- `", "`-separated array elements. -/
def jsonDumpList : List JValue → String
  | [] => ""
  | [v] => jsonDump v
  | v :: rest => jsonDump v ++ ", " ++ jsonDumpList rest

/-- `", "`-separated object entries, each `"key": value`. -/
def jsonDumpFields : List (String × JValue) → String
  | [] => ""
  | [kv] => jsonDumpStr kv.1 ++ ": " ++ jsonDump kv.2
  | kv :: rest => jsonDumpStr kv.1 ++ ": " ++ jsonDump kv.2 ++ ", " ++ jsonDumpFields rest

end

/-- `_utils.encode_inputs`: `"{}"` for `None`, else `json.dumps(inputs)`.
In the `JValue` model every value is serializable, so the `TypeError` branch
(raised as `ValueError`) is unreachable. -/
def encode_inputs (inputs : Option (List (String × JValue))) : String :=
  match inputs with
  | none => "\x7b\x7d"
  | some fs => jsonDump (.obj fs)

/-- The import block of the function-call artifact. -/
def importsCode (isAsync : Bool) : String :=
  "import json\nimport sys\nimport base64\nimport traceback"
    ++ (if isAsync then "\nimport asyncio" else "")

/-- The guest-call expression of the function-call artifact. -/
def execLogic (funcName : String) (isAsync : Bool) : String :=
  let callStr := funcName ++ "(**inputs_dict)"
  if isAsync then "asyncio.run(" ++ callStr ++ ")" else callStr

/-- `Sandbox._generate_function_script` (lines 129-204), after
`textwrap.dedent` and `str.format`: header, imports, the guest function
verbatim, and the `__main__` trailer implementing the one-line JSON wire
protocol. -/
def generate_function_script (deps : List (String × DepSpec)) (code funcName : String)
    (inputs : Option (List (String × JValue))) (isAsync : Bool) : String :=
  let b64 := b64Encode (utf8Bytes (encode_inputs inputs))
  "# /// script\n# requires-python = \">=3.10\"\n# dependencies = [\n#    "
    ++ format_dependencies deps
    ++ "\n# ]\n# ///\n\n"
    ++ importsCode isAsync
    ++ "\n\n" ++ code ++ "\n\n"
    ++ "if __name__ == \"__main__\":\n"
    ++ "    output_result = None\n"
    ++ "    error_details = None\n"
    ++ "    final_output_dict = \x7b\x7d\n"
    ++ "\n"
    ++ "    try:\n"
    ++ "        inputs_dict = json.loads(base64.b64decode(\x27" ++ b64
    ++ "\x27).decode(\x27utf-8\x27))\n"
    ++ "        output_result = " ++ execLogic funcName isAsync ++ "\n"
    ++ "    except Exception as e:\n"
    ++ "         error_details = f\"Error during execution: \x7be\x7d\\n\x7btraceback.format_exc()\x7d\"\n"
    ++ "         print(error_details, file=sys.stderr)\n"
    ++ "         final_output_dict[\"error\"] = error_details\n"
    ++ "\n"
    ++ "    if error_details is None:\n"
    ++ "         try:\n"
    ++ "             json.dumps(output_result, ensure_ascii=False)\n"
    ++ "             final_output_dict[\"result\"] = output_result\n"
    ++ "         except TypeError as serialization_error:\n"
    ++ "             err_msg = f\"Function result not JSON serializable: \x7bserialization_error\x7d\"\n"
    ++ "             final_output_dict[\"error\"] = err_msg\n"
    ++ "             print(err_msg, file=sys.stderr)\n"
    ++ "\n"
    ++ "    try:\n"
    ++ "         print(json.dumps(final_output_dict, ensure_ascii=False))\n"
    ++ "    except Exception as final_dump_error:\n"
    ++ "         err_fallback = \x7b\"error\": f\"Fatal: Could not dump final output: \x7bfinal_dump_error\x7d\"\x7d\n"
    ++ "         print(json.dumps(err_fallback))\n"
    ++ "         print(err_fallback[\"error\"], file=sys.stderr)\n"

/-! ## Constructor-time setup errors (manager.py, runners/subprocess.py) -/

/-- The exception kinds a `Sandbox` construction can raise. -/
inductive InitError where
  | valueError (msg : String)
  | fileNotFound (msg : String)
  | runtimeError (msg : String)
deriving DecidableEq

/-- `SubprocessSandboxRunner.__init__` (lines 25-73): `uvPath` is
`shutil.which("uv")`; when absent, raise `FileNotFoundError` before anything
else; otherwise build the filtered environment. -/
def subprocess_runner_init (uvPath : Option String) (allowed : List String)
    (environment : List (String × String)) (osEnv : List (String × String)) :
    Except InitError (List (String × String)) :=
  match uvPath with
  | none => .error (.fileNotFound "The \x27uv\x27 command was not found in the system PATH.")
  | some _ => .ok (subprocessFilteredEnv allowed environment osEnv)

/-- `Sandbox.__init__` (lines 40-91): validate the backend name, resolve the
allow-list default, construct the runner, re-wrapping `FileNotFoundError`
(and downgrading any other exception to `RuntimeError`).  The payload is the
runner's filtered environment. -/
def sandbox_init (runnerType : String) (uvPath : Option String)
    (environment : List (String × String)) (allowedOverride : Option (List String))
    (osEnv : List (String × String)) : Except InitError (List (String × String)) :=
  if runnerType = "subprocess" ∨ runnerType = "docker" then
    let allowed := allowedOverride.getD
      (if runnerType = "docker" then DEFAULT_ALLOWED_ENV_VARS_DOCKER
       else DEFAULT_ALLOWED_ENV_VARS)
    if runnerType = "docker" then .ok (dockerFilteredEnv allowed environment)
    else
      match subprocess_runner_init uvPath allowed environment osEnv with
      | .ok env => .ok env
      | .error (.fileNotFound m) =>
        .error (.fileNotFound ("Failed to init runner \x27subprocess\x27: " ++ m))
      | .error (.valueError m) =>
        .error (.runtimeError ("Failed to initialize runner \x27subprocess\x27: " ++ m))
      | .error (.runtimeError m) =>
        .error (.runtimeError ("Failed to initialize runner \x27subprocess\x27: " ++ m))
  else
    .error (.valueError ("Unknown runner_type \x27" ++ runnerType
      ++ "\x27. Use: [\x27subprocess\x27, \x27docker\x27]"))

/-! ## Helper lemmas -/

lemma append_ne_empty_left (a b : String) (h : a ≠ "") : a ++ b ≠ "" := by
  intro hc
  have h2 := congrArg String.length hc
  rw [String.length_append] at h2
  have h0 : ("" : String).length = 0 := rfl
  have ha : a.length = 0 := by omega
  apply h
  cases a with
  | mk d =>
    cases d with
    | nil => rfl
    | cons x xs => simp [String.length] at ha

lemma string_ne_of_getElem (a b : String) (i : Nat) (c d : Char)
    (ha : a.data[i]? = some c) (hb : b.data[i]? = some d) (hcd : c ≠ d) : a ≠ b := by
  intro h
  subst h
  rw [ha] at hb
  exact hcd (Option.some.inj hb)

lemma startsWithChars_append_self (n z : List Char) :
    startsWithChars (n ++ z) n = true := by
  induction n with
  | nil => cases z <;> rfl
  | cons a as ih => simp [startsWithChars, ih]

lemma containsSub_self_append (n z : List Char) : containsSub (n ++ z) n = true := by
  cases n with
  | nil =>
    cases z with
    | nil => rfl
    | cons c cs => simp [containsSub, startsWithChars]
  | cons a as =>
    have h : startsWithChars ((a :: as) ++ z) (a :: as) = true :=
      startsWithChars_append_self _ _
    rw [List.cons_append] at h ⊢
    simp [containsSub, h]

lemma containsSub_append_left (x : List Char) {y n : List Char}
    (h : containsSub y n = true) : containsSub (x ++ y) n = true := by
  induction x with
  | nil => simpa using h
  | cons c cs ih => simp [containsSub, ih]

lemma containsSub_self (n : List Char) : containsSub n n = true := by
  have h := containsSub_self_append n []
  rwa [List.append_nil] at h

lemma timeoutMsg_data (t : String) :
    (subprocessTimeoutMsg t).data
      = "Subprocess timed out after ".data ++ (t.data ++ " seconds.".data) := by
  simp [subprocessTimeoutMsg, String.data_append, List.append_assoc]

lemma failMsg_data (n : Int) (s : String) :
    (subprocessFailMsg n s).data
      = "Subprocess failed (exit code ".data
          ++ ((toString n).data ++ ("). Stderr: ".data ++ (pyStrip s).data)) := by
  simp [subprocessFailMsg, String.data_append, List.append_assoc]

/-- The timeout message and the nonzero-exit message are always distinct
(they differ at character index 11). -/
lemma timeoutMsg_ne_failMsg (t : String) (n : Int) (s : String) :
    subprocessTimeoutMsg t ≠ subprocessFailMsg n s := by
  apply string_ne_of_getElem _ _ 11 't' 'f'
  · rw [timeoutMsg_data, List.getElem?_append_left (by decide)]
    decide
  · rw [failMsg_data, List.getElem?_append_left (by decide)]
    decide
  · decide

/-- Every error message a backend can place in an outcome is non-empty. -/
lemma backend_error_nonempty (r : Result) (e : String)
    (hb : IsBackendOutcome r) (he : r.error = some e) : e ≠ "" := by
  rcases hb with ⟨t, ev, rfl⟩ | ⟨ev, hev⟩
  · cases ev with
    | completed exitCode out err =>
      simp only [subprocess_execute] at he
      by_cases hc : exitCode ≠ 0
      · rw [if_pos hc] at he
        have hmsg := Option.some.inj he
        subst hmsg
        unfold subprocessFailMsg
        apply append_ne_empty_left
        apply append_ne_empty_left
        apply append_ne_empty_left
        decide
      · rw [if_neg hc] at he
        exact absurd he (by simp)
    | timedOut =>
      simp only [subprocess_execute] at he
      have hmsg := Option.some.inj he
      subst hmsg
      unfold subprocessTimeoutMsg
      apply append_ne_empty_left
      apply append_ne_empty_left
      decide
    | unexpected msg =>
      simp only [subprocess_execute] at he
      have hmsg := Option.some.inj he
      subst hmsg
      apply append_ne_empty_left
      decide
  · cases ev with
    | completed exitCode stdoutBytes stderrBytes =>
      simp only [docker_execute] at hev
      have hr := Except.ok.inj hev
      subst hr
      simp only at he
      by_cases hc : exitCode ≠ 0
      · rw [if_pos hc] at he
        have hmsg := Option.some.inj he
        subst hmsg
        apply append_ne_empty_left
        apply append_ne_empty_left
        apply append_ne_empty_left
        decide
      · rw [if_neg hc] at he
        exact absurd he (by simp)
    | imageNotFound m => exact absurd hev (by simp [docker_execute])
    | notFound m => exact absurd hev (by simp [docker_execute])
    | daemonError m => exact absurd hev (by simp [docker_execute])
    | unexpected pOut pErr m =>
      simp only [docker_execute] at hev
      have hr := Except.ok.inj hev
      subst hr
      simp only at he
      have hmsg := Option.some.inj he
      subst hmsg
      apply append_ne_empty_left
      decide

/-! ## C3: the script builder is a pure, deterministic function -/

/-- C3: for a fixed Sandbox configuration, two invocations of the script
builder on identical inputs produce byte-identical artifact text, in plain
mode and in function-call mode.  The embedding is a pure function of the
configuration because the source reads no ambient state in either builder
(dependency iteration is insertion-ordered). -/
theorem builder_deterministic (deps deps' : List (String × DepSpec)) (code code' fn fn' : String)
    (inputs inputs' : Option (List (String × JValue))) (isAsync isAsync' : Bool)
    (h1 : deps = deps') (h2 : code = code') (h3 : fn = fn')
    (h4 : inputs = inputs') (h5 : isAsync = isAsync') :
    generate_script deps code = generate_script deps' code'
    ∧ generate_function_script deps code fn inputs isAsync
      = generate_function_script deps' code' fn' inputs' isAsync' := by
  subst h1; subst h2; subst h3; subst h4; subst h5
  exact ⟨rfl, rfl⟩

/-- Witness for `builder_deterministic` at a concrete configuration. -/
theorem builder_deterministic_witness :
    generate_script [("requests", .constraint "*")] "def main(x):\n    return x"
      = generate_script [("requests", .constraint "*")] "def main(x):\n    return x"
    ∧ generate_function_script [("requests", .constraint "*")] "def main(x):\n    return x"
        "main" (some [("x", .num 1)]) false
      = generate_function_script [("requests", .constraint "*")] "def main(x):\n    return x"
        "main" (some [("x", .num 1)]) false :=
  builder_deterministic [("requests", .constraint "*")] [("requests", .constraint "*")]
    "def main(x):\n    return x" "def main(x):\n    return x" "main" "main"
    (some [("x", .num 1)]) (some [("x", .num 1)]) false false rfl rfl rfl rfl rfl

/-! ## C7: container backend failure taxonomy -/

/-- C7: on the container backend, image/container resolution failures and
other daemon-level failures are raised (fatal), not embedded in a returned
`Outcome`; any other unexpected runner exception is downgraded into the
returned `Outcome`'s error field plus a stderr annotation. -/
theorem docker_failure_taxonomy (m partialStdout partialStderr : String) :
    docker_execute (.imageNotFound m) = .error ("Docker image/container error: " ++ m)
    ∧ docker_execute (.notFound m) = .error ("Docker image/container error: " ++ m)
    ∧ docker_execute (.daemonError m) = .error ("Docker operation failed: " ++ m)
    ∧ docker_execute (.unexpected partialStdout partialStderr m)
        = .ok { stdout := partialStdout,
                stderr := partialStderr ++ "\n[Runner Error] " ++ m,
                error := some ("Docker runner unexpected error: " ++ m) } :=
  ⟨rfl, rfl, rfl, rfl⟩

/-! ## C8: setup errors are raised in the constructor -/

/-- C8: an unknown backend name raises `ValueError` in `Sandbox.__init__`,
and constructing the subprocess backend with no `uv` executable on the PATH
raises `FileNotFoundError` (re-wrapped by the manager), both before any
execution attempt. -/
theorem constructor_setup_errors (rt : String) (uvPath : Option String)
    (environment : List (String × String)) (allowedOverride : Option (List String))
    (osEnv : List (String × String)) (h : rt ≠ "subprocess" ∧ rt ≠ "docker") :
    sandbox_init rt uvPath environment allowedOverride osEnv
      = .error (.valueError ("Unknown runner_type \x27" ++ rt
          ++ "\x27. Use: [\x27subprocess\x27, \x27docker\x27]"))
    ∧ sandbox_init "subprocess" none environment allowedOverride osEnv
      = .error (.fileNotFound
          ("Failed to init runner \x27subprocess\x27: The \x27uv\x27 command was not found in the system PATH.")) := by
  constructor
  · simp [sandbox_init, h.1, h.2]
  · simp [sandbox_init, subprocess_runner_init]

/-- Witness for `constructor_setup_errors` at a concrete bad backend name. -/
theorem constructor_setup_errors_witness :
    sandbox_init "firecracker" none [] none []
      = .error (.valueError ("Unknown runner_type \x27firecracker\x27. Use: [\x27subprocess\x27, \x27docker\x27]"))
    ∧ sandbox_init "subprocess" none [] none []
      = .error (.fileNotFound
          ("Failed to init runner \x27subprocess\x27: The \x27uv\x27 command was not found in the system PATH.")) :=
  constructor_setup_errors "firecracker" none [] none [] (by decide)

/-! ## C9: dependency rendering shapes -/

/-- The dependency-specifier shapes as the specification describes them:
bare name for a `"*"` constraint or an empty record, `name<constraint>` for
another constraint string, and `name==version` / `name[extras]` /
`name[extras]==version` for structured records. -/
def claimSpecifier (key : String) (v : DepSpec) : String :=
  match v with
  | .constraint c => if c = "*" then key else key ++ c
  | .record ver ex =>
    let version := ver.getD ""
    let extras := ex.getD []
    if extras = [] then
      (if version = "" then key else key ++ "==" ++ version)
    else
      (if version = "" then key ++ "[" ++ String.intercalate "," extras ++ "]"
       else key ++ "[" ++ String.intercalate "," extras ++ "]==" ++ version)

/-- C9: the rendered artifact header lists each dependency in insertion
order as a quoted specifier of the claimed shape, and the plain-mode
artifact embeds that rendering in its header block. -/
theorem dependency_header_shapes (deps : List (String × DepSpec)) (code : String) :
    format_dependencies deps
      = String.intercalate ",\n#    " (deps.map (fun kv => "\"" ++ claimSpecifier kv.1 kv.2 ++ "\""))
    ∧ generate_script deps code
      = "\n# /// script\n# requires-python = \">=3.10\"\n# dependencies = [\n#    "
          ++ format_dependencies deps ++ "\n# ]\n# ///\n" ++ code ++ "\n" := by
  constructor
  · unfold format_dependencies
    congr 1
    apply List.map_congr_left
    intro kv _
    cases kv with
    | mk key v =>
      cases v with
      | constraint c =>
        by_cases hc : c = "*" <;> simp [renderDep, claimSpecifier, hc, String.append_assoc]
      | record ver ex =>
        by_cases hex : ex.getD [] = [] <;> by_cases hver : ver.getD "" = "" <;>
          simp [renderDep, claimSpecifier, hex, hver, String.append_assoc]
  · rfl

/-! ## C4: backend errors pass through run_function unchanged -/

/-- C4: a backend outcome that already carries an error is returned by
`run_function` completely unchanged (so in particular no stdout decoding
can affect it). -/
theorem run_function_backend_error_passthrough (r : Result) (e : String)
    (hb : IsBackendOutcome r) (he : r.error = some e) :
    run_function_postprocess r = r := by
  have hne := backend_error_nonempty r e hb he
  have hb2 : (e == "") = false := beq_eq_false_iff_ne.mpr hne
  have ht : optStrTruthy r.error = true := by
    rw [he]
    simp [optStrTruthy, hb2]
  simp [run_function_postprocess, ht]

/-- Witness for `run_function_backend_error_passthrough` at a concrete
failed subprocess execution. -/
theorem run_function_backend_error_passthrough_witness :
    run_function_postprocess (subprocess_execute "60.0" (.completed 1 "out" "boom"))
      = subprocess_execute "60.0" (.completed 1 "out" "boom") := by
  apply run_function_backend_error_passthrough _ (subprocessFailMsg 1 "boom")
  · exact Or.inl ⟨"60.0", .completed 1 "out" "boom", rfl⟩
  · rfl

/-! ## C6: timeout is distinct from the nonzero-exit runtime failure -/

/-- C6: on the process backend, timeout expiry yields the dedicated timeout
error, which can never coincide with a nonzero-exit message; a nonzero exit
without timeout yields the runtime-failure message that carries the exit
code and the (stripped) captured stderr, with the full stderr still in the
outcome. -/
theorem subprocess_timeout_and_runtime_failure (t : String) (code : Int) (out err : String)
    (hc : code ≠ 0) :
    (subprocess_execute t .timedOut).error = some (subprocessTimeoutMsg t)
    ∧ (∀ n s, subprocessTimeoutMsg t ≠ subprocessFailMsg n s)
    ∧ (subprocess_execute t (.completed code out err)).error = some (subprocessFailMsg code err)
    ∧ (subprocess_execute t (.completed code out err)).stderr = err
    ∧ strContains (subprocessFailMsg code err) (toString code) = true
    ∧ strContains (subprocessFailMsg code err) (pyStrip err) = true := by
  refine ⟨rfl, fun n s => timeoutMsg_ne_failMsg t n s, ?_, rfl, ?_, ?_⟩
  · simp [subprocess_execute, hc]
  · show containsSub (subprocessFailMsg code err).data (toString code).data = true
    rw [failMsg_data]
    exact containsSub_append_left _ (containsSub_self_append _ _)
  · show containsSub (subprocessFailMsg code err).data (pyStrip err).data = true
    rw [failMsg_data]
    exact containsSub_append_left _ (containsSub_append_left _
      (containsSub_append_left _ (containsSub_self _)))

/-- Witness for `subprocess_timeout_and_runtime_failure` at exit code 1 and
stderr `boom`. -/
theorem subprocess_timeout_and_runtime_failure_witness :
    (1 : Int) ≠ 0
    ∧ (subprocess_execute "60.0" (.completed 1 "" "boom")).error
        = some "Subprocess failed (exit code 1). Stderr: boom"
    ∧ subprocessTimeoutMsg "60.0" ≠ subprocessFailMsg 1 "boom" := by
  have h := subprocess_timeout_and_runtime_failure "60.0" 1 "" "boom" (by decide)
  refine ⟨by decide, ?_, h.2.1 1 "boom"⟩
  rw [h.2.2.1]
  decide

/-! ## C1: what the decoder actually decodes, and the bounded preview -/

/-- Modelled from the spec: "decode the last stdout line" — the final
newline-separated line of a string.  Stated only to express what claim C1
predicts; the code itself parses the whole stripped stdout instead. -/
def lastLine (s : String) : String :=
  String.mk ((s.data.reverse.takeWhile (fun c => !(c == '\n'))).reverse)

/-- C1 counterexample: a backend outcome with no error whose stdout ends in
a perfectly decodable last line (`{"result": 7}`) preceded by other output.
The claim predicts a decoded result; the code parses the whole stdout,
fails, and reports a decode error instead. -/
theorem decode_last_line_counterexample :
    (subprocess_execute "60.0" (.completed 0 "hello\n\x7b\"result\": 7\x7d" "")).error = none
    ∧ (subprocess_execute "60.0" (.completed 0 "hello\n\x7b\"result\": 7\x7d" "")).stdout ≠ ""
    ∧ jsonParse (lastLine "hello\n\x7b\"result\": 7\x7d") = .ok (.obj [("result", .num 7)])
    ∧ (run_function_postprocess
        (subprocess_execute "60.0" (.completed 0 "hello\n\x7b\"result\": 7\x7d" ""))).result = none
    ∧ (run_function_postprocess
        (subprocess_execute "60.0" (.completed 0 "hello\n\x7b\"result\": 7\x7d" ""))).error
      = some "Failed to parse JSON from stdout: Failed to decode JSON result from stdout: Expecting value. Output preview: hello\n\x7b\"result\": 7\x7d" :=
  ⟨rfl, by decide, rfl, rfl, rfl⟩

/-- C1 (amended): with no backend error and non-empty stdout, the decoder
parses the *entire stripped stdout*; on failure the reported decode error
embeds a preview of the offending text capped at 1000 characters (plus a
3-character ellipsis when truncated). -/
theorem decode_uses_whole_stdout (r : Result) (msg : String)
    (he : r.error = none) (hs : r.stdout ≠ "")
    (hp : jsonParse (pyStrip r.stdout) = .error msg) :
    (run_function_postprocess r).error
      = some ("Failed to parse JSON from stdout: "
          ++ ("Failed to decode JSON result from stdout: " ++ msg ++ ". Output preview: "
              ++ (if r.stdout.length > 1000 then takeChars r.stdout 1000 ++ "..." else r.stdout)))
    ∧ (if r.stdout.length > 1000 then takeChars r.stdout 1000 ++ "..." else r.stdout).length
        ≤ min r.stdout.length 1000 + 3 := by
  have hd : decode_result_from_stdout r.stdout
      = .error ("Failed to decode JSON result from stdout: " ++ msg ++ ". Output preview: "
          ++ (if r.stdout.length > 1000 then takeChars r.stdout 1000 ++ "..." else r.stdout)) := by
    unfold decode_result_from_stdout
    rw [hp]
  constructor
  · simp [run_function_postprocess, he, hs, optStrTruthy, hd]
  · by_cases hlen : r.stdout.length > 1000
    · rw [if_pos hlen]
      have h1 : (takeChars r.stdout 1000).length = min 1000 r.stdout.length := by
        show (r.stdout.data.take 1000).length = min 1000 r.stdout.data.length
        exact List.length_take 1000 r.stdout.data
      have h2 : min 1000 r.stdout.length = 1000 := Nat.min_eq_left (by omega)
      have h3 : min r.stdout.length 1000 = 1000 := Nat.min_eq_right (by omega)
      rw [String.length_append, h1, h2, h3]
      have h4 : ("..." : String).length = 3 := rfl
      omega
    · rw [if_neg hlen]
      have h3 : min r.stdout.length 1000 = r.stdout.length := Nat.min_eq_left (by omega)
      omega

/-- Witness for `decode_uses_whole_stdout` at the undecodable stdout
`not json`. -/
theorem decode_uses_whole_stdout_witness :
    ({ stdout := "not json" } : Result).error = none
    ∧ ("not json" : String) ≠ ""
    ∧ jsonParse (pyStrip "not json") = .error "Expecting value"
    ∧ (run_function_postprocess { stdout := "not json" }).error
        = some "Failed to parse JSON from stdout: Failed to decode JSON result from stdout: Expecting value. Output preview: not json" := by
  have h := decode_uses_whole_stdout { stdout := "not json" } "Expecting value" rfl (by decide) rfl
  refine ⟨rfl, by decide, rfl, ?_⟩
  rw [h.1]
  decide

/-! ## C5: combining a guest-reported error with backend stderr -/

/-- C5 counterexample: the decoded guest error is `xay` and the backend
stderr is `a`, which *is* substring-contained in the guest error; the claim
says stderr must then not be appended, but the code appends it (the code's
test is the reverse containment, guest error within stderr). -/
theorem guest_error_append_counterexample :
    jsonParse (pyStrip "\x7b\"error\": \"xay\"\x7d") = .ok (.obj [("error", .str "xay")])
    ∧ strContains "xay" "a" = true
    ∧ (run_function_postprocess { stdout := "\x7b\"error\": \"xay\"\x7d", stderr := "a" }).error
        = some "Script Error: xay\n--- Runner Stderr ---\na" :=
  ⟨rfl, rfl, rfl⟩

/-- C5 (amended): when the decoded stdout mapping carries a string-valued
`error`, the outcome's error is `Script Error: <guest error>`, with the
backend stderr appended only when it is non-empty and the guest error is
not already substring-contained in the backend stderr. -/
theorem run_function_guest_error_combination (r : Result) (fields : List (String × JValue))
    (e : String) (he : r.error = none) (hs : r.stdout ≠ "")
    (hp : jsonParse (pyStrip r.stdout) = .ok (.obj fields))
    (hge : objGet fields "error" = some (.str e)) :
    (run_function_postprocess r).error
      = some (if r.stderr ≠ "" ∧ strContains r.stderr e = false
          then "Script Error: " ++ e ++ "\n--- Runner Stderr ---\n" ++ r.stderr
          else "Script Error: " ++ e) := by
  have hd : decode_result_from_stdout r.stdout = .ok (.obj fields) := by
    unfold decode_result_from_stdout
    rw [hp]
  have hpp : run_function_postprocess r = assembleDecoded r fields := by
    unfold run_function_postprocess
    rw [he, hd]
    simp [optStrTruthy, hs]
  rw [hpp]
  unfold assembleDecoded
  rw [hge]
  cases h1 : objGet fields "result" with
  | none =>
    by_cases hb : strContains r.stderr e = false <;>
      simp [combineGuestError, hb, apply_ite] <;>
      by_cases hse : r.stderr = "" <;> simp [hse]
  | some v =>
    by_cases hb : strContains r.stderr e = false <;>
      simp [combineGuestError, hb, apply_ite] <;>
      by_cases hse : r.stderr = "" <;> simp [hse]

/-- Witness for `run_function_guest_error_combination`: guest error `boom`
with unrelated backend stderr `zz`, which gets appended. -/
theorem run_function_guest_error_combination_witness :
    jsonParse (pyStrip "\x7b\"error\": \"boom\"\x7d") = .ok (.obj [("error", .str "boom")])
    ∧ (run_function_postprocess { stdout := "\x7b\"error\": \"boom\"\x7d", stderr := "zz" }).error
        = some "Script Error: boom\n--- Runner Stderr ---\nzz" := by
  have h := run_function_guest_error_combination
    { stdout := "\x7b\"error\": \"boom\"\x7d", stderr := "zz" }
    [("error", .str "boom")] "boom" rfl (by decide) rfl rfl
  refine ⟨rfl, ?_⟩
  rw [h]
  decide

/-! ## C10: empty stdout and stderr pass through with no error -/

/-- C10: a backend outcome with no error, empty stdout and empty stderr is
returned unchanged by `run_function`: error stays unset and no structured
result appears (neither the no-output error nor the protocol-violation
error fires). -/
theorem run_function_empty_streams (r : Result) (he : r.error = none)
    (ho : r.stdout = "") (hs : r.stderr = "") (hr : r.result = none) :
    run_function_postprocess r = r
    ∧ (run_function_postprocess r).error = none
    ∧ (run_function_postprocess r).result = none := by
  have hpp : run_function_postprocess r = r := by
    simp [run_function_postprocess, he, ho, hs, optStrTruthy]
  exact ⟨hpp, by rw [hpp, he], by rw [hpp, hr]⟩

/-- Witness for `run_function_empty_streams` at the all-empty outcome. -/
theorem run_function_empty_streams_witness :
    run_function_postprocess {} = ({} : Result)
    ∧ (run_function_postprocess {}).error = none
    ∧ (run_function_postprocess {}).result = none :=
  run_function_empty_streams {} rfl rfl rfl rfl

/-! ## C2: the environment filter, on both backends -/

lemma envHasKey_filter (allowed : List String) (env : List (String × String)) (k : String) :
    envHasKey (envFilter allowed env) k = (allowed.contains k && envHasKey env k) := by
  induction env with
  | nil => simp [envFilter, envHasKey]
  | cons hd tl ih =>
    simp only [envFilter, List.filter_cons] at ih ⊢
    by_cases hke : hd.1 = k
    · subst hke
      by_cases hp : allowed.contains hd.1 = true <;>
        simp [envHasKey, hp, ih] <;> simp_all [envHasKey]
    · have hke2 : (hd.1 == k) = false := beq_eq_false_iff_ne.mpr hke
      by_cases hp : allowed.contains hd.1 = true <;>
        simp [envHasKey, hp, ih, hke2] <;> simp_all [envHasKey]

lemma envHasKey_append_single (l : List (String × String)) (v x k : String) :
    envHasKey (l ++ [(v, x)]) k = (envHasKey l k || (v == k)) := by
  simp [envHasKey, List.any_append]

lemma envHasKey_injectBootVar (osEnv : List (String × String)) (allowed : List String)
    (name : String) (l : List (String × String)) (k : String) :
    envHasKey (injectBootVar osEnv allowed name l) k
      = (envHasKey l k || ((allowed.contains name && !envHasKey l name) && (name == k))) := by
  by_cases hg : (allowed.contains name && !envHasKey l name) = true
  · simp only [injectBootVar]
    rw [hg]
    simp [envHasKey_append_single]
  · rw [Bool.not_eq_true] at hg
    simp only [injectBootVar]
    rw [hg]
    simp

lemma envHasKey_injectTempVar (osEnv : List (String × String)) (allowed : List String)
    (l : List (String × String)) (name : String) (k : String) :
    envHasKey (injectTempVar osEnv allowed l name) k
      = (envHasKey l k
         || ((allowed.contains name && !envHasKey l name
              && !((envGet osEnv name).getD "" == "")) && (name == k))) := by
  by_cases hg : (allowed.contains name && !envHasKey l name
      && !((envGet osEnv name).getD "" == "")) = true
  · simp only [injectTempVar]
    rw [hg]
    simp [envHasKey_append_single]
  · rw [Bool.not_eq_true] at hg
    simp only [injectTempVar]
    rw [hg]
    simp

/-- Claim C2 as stated: the filtered environment holds exactly the
allow-listed host-supplied keys plus the boot defaults re-injected whenever
they are allow-listed and missing from the host-supplied map. -/
def envMatchesClaimC2 (allowed : List String) (environment filtered : List (String × String)) :
    Prop :=
  ∀ k, envHasKey filtered k = true ↔
    ((k ∈ allowed ∧ envHasKey environment k = true)
     ∨ (k ∈ allowed ∧ envHasKey environment k = false
        ∧ k ∈ ["PATH", "HOME", "USER", "TMPDIR", "TEMP", "TMP"]))

/-- C2 counterexample: the docker runner performs no re-injection at all.
With allow-list `["PATH"]` and an empty host-supplied map, the claim
demands `PATH` in the filtered environment, but the docker filter returns
the empty map. -/
theorem docker_no_reinjection_counterexample :
    ¬ envMatchesClaimC2 ["PATH"] [] (dockerFilteredEnv ["PATH"] []) := by
  intro h
  have h2 := (h "PATH").mpr (Or.inr ⟨by decide, rfl, by decide⟩)
  exact absurd h2 (by decide)

/-- C2 (amended): a key is in the subprocess backend's filtered environment
iff it is an allow-listed host-supplied key, or `PATH`/`HOME`/`USER`
allow-listed and missing from the host-supplied map (re-injected from the
process environment, possibly as the empty string), or a temp-directory
variable allow-listed, missing, and non-empty in the process environment;
the docker backend only filters, with no re-injection; and the subprocess
filtered environment never holds a key outside the allow-list (for the
docker backend this is immediate from its characterization). -/
theorem filtered_env_characterization (allowed : List String)
    (environment osEnv : List (String × String)) (k : String) :
    envHasKey (dockerFilteredEnv allowed environment) k
      = (allowed.contains k && envHasKey environment k)
    ∧ envHasKey (subprocessFilteredEnv allowed environment osEnv) k
      = ((allowed.contains k && envHasKey environment k)
         || ((k == "PATH" || k == "HOME" || k == "USER")
              && (allowed.contains k && !envHasKey environment k))
         || ((k == "TMPDIR" || k == "TEMP" || k == "TMP")
              && (allowed.contains k && !envHasKey environment k
                  && !((envGet osEnv k).getD "" == ""))))
    ∧ (envHasKey (subprocessFilteredEnv allowed environment osEnv) k = true
        → allowed.contains k = true) := by
  have hdocker : envHasKey (dockerFilteredEnv allowed environment) k
      = (allowed.contains k && envHasKey environment k) := envHasKey_filter allowed environment k
  have hsub : envHasKey (subprocessFilteredEnv allowed environment osEnv) k
      = ((allowed.contains k && envHasKey environment k)
         || ((k == "PATH" || k == "HOME" || k == "USER")
              && (allowed.contains k && !envHasKey environment k))
         || ((k == "TMPDIR" || k == "TEMP" || k == "TMP")
              && (allowed.contains k && !envHasKey environment k
                  && !((envGet osEnv k).getD "" == "")))) := by
    unfold subprocessFilteredEnv
    simp only [List.foldl_cons, List.foldl_nil]
    simp only [envHasKey_injectTempVar, envHasKey_injectBootVar, envHasKey_filter]
    by_cases h1 : k = "PATH"
    · subst h1
      cases hc : allowed.contains "PATH" <;> cases he2 : envHasKey environment "PATH" <;>
        simp +decide [hc, he2]
    by_cases h2 : k = "HOME"
    · subst h2
      cases hc : allowed.contains "HOME" <;> cases he2 : envHasKey environment "HOME" <;>
        simp +decide [hc, he2]
    by_cases h3 : k = "USER"
    · subst h3
      cases hc : allowed.contains "USER" <;> cases he2 : envHasKey environment "USER" <;>
        simp +decide [hc, he2]
    by_cases h4 : k = "TMPDIR"
    · subst h4
      cases hc : allowed.contains "TMPDIR" <;> cases he2 : envHasKey environment "TMPDIR" <;>
        simp +decide [hc, he2]
    by_cases h5 : k = "TEMP"
    · subst h5
      cases hc : allowed.contains "TEMP" <;> cases he2 : envHasKey environment "TEMP" <;>
        simp +decide [hc, he2]
    by_cases h6 : k = "TMP"
    · subst h6
      cases hc : allowed.contains "TMP" <;> cases he2 : envHasKey environment "TMP" <;>
        simp +decide [hc, he2]
    · have f1 : ("PATH" == k) = false := beq_eq_false_iff_ne.mpr (Ne.symm h1)
      have f2 : ("HOME" == k) = false := beq_eq_false_iff_ne.mpr (Ne.symm h2)
      have f3 : ("USER" == k) = false := beq_eq_false_iff_ne.mpr (Ne.symm h3)
      have f4 : ("TMPDIR" == k) = false := beq_eq_false_iff_ne.mpr (Ne.symm h4)
      have f5 : ("TEMP" == k) = false := beq_eq_false_iff_ne.mpr (Ne.symm h5)
      have f6 : ("TMP" == k) = false := beq_eq_false_iff_ne.mpr (Ne.symm h6)
      have g1 : (k == "PATH") = false := beq_eq_false_iff_ne.mpr h1
      have g2 : (k == "HOME") = false := beq_eq_false_iff_ne.mpr h2
      have g3 : (k == "USER") = false := beq_eq_false_iff_ne.mpr h3
      have g4 : (k == "TMPDIR") = false := beq_eq_false_iff_ne.mpr h4
      have g5 : (k == "TEMP") = false := beq_eq_false_iff_ne.mpr h5
      have g6 : (k == "TMP") = false := beq_eq_false_iff_ne.mpr h6
      simp +decide [f1, f2, f3, f4, f5, f6, g1, g2, g3, g4, g5, g6]
  refine ⟨hdocker, hsub, ?_⟩
  intro h
  rw [hsub] at h
  simp only [Bool.or_eq_true, Bool.and_eq_true] at h
  rcases h with (⟨hc, -⟩ | ⟨-, hc, -⟩) | ⟨-, ⟨hc, -⟩, -⟩ <;> exact hc

/-- Witness for `filtered_env_characterization`: `PATH` allow-listed but
missing from the host-supplied map is re-injected by the subprocess
backend, and the allow-list membership conclusion holds there. -/
theorem filtered_env_characterization_witness :
    envHasKey (subprocessFilteredEnv ["PATH"] [] [("PATH", "/usr/bin")]) "PATH" = true
    ∧ (["PATH"] : List String).contains "PATH" = true :=
  ⟨by decide,
   (filtered_env_characterization ["PATH"] [] [("PATH", "/usr/bin")] "PATH").2.2 (by decide)⟩

end SandboxSDK
